import Mathlib

/-!
Shallow embedding of the security-questionnaire answering pipeline:
question normalization, verified-answer cache, confidence scoring, the
answerability penalty, the escalation decision with employee routing, batch
orchestration, and LLM-response parsing.

Scores are modelled as rationals. External services (embedding, vector
search, LLM completions, JSON parsing of LLM output, the Mongo database)
are modelled as explicit arguments: an `Except String α` for a call that can
raise, a `List` for a collection, a plain function for an oracle. The
pipeline code consumes their results or their failures exactly as the
source does.
-/

/-- A retrieved evidence chunk (`Evidence` in src/agents/knowledge_agent.py). -/
structure Evidence where
  text : String
  doc_title : String
  doc_type : String
  sect : Option String
  similarity_score : ℚ
deriving DecidableEq, Repr

/-- Source-authority weight: `authority_map.get(doc_type, 0.5)` with
`authority_map = soc2 1.0, policy 0.8, procedure 0.7, other 0.5` in
`KnowledgeAgent._calculate_confidence`. -/
def authorityWeight (doc_type : String) : ℚ :=
  if doc_type = "soc2" then 1
  else if doc_type = "policy" then 4/5
  else if doc_type = "procedure" then 7/10
  else 1/2

/-- `KnowledgeAgent._calculate_confidence` (src/agents/knowledge_agent.py):
`0.5*top_similarity + 0.3*avg_authority(first 3, divided by min(len, 3))
+ 0.2*min(len/3, 1)`, capped at `0.98`; `0.0` on empty evidence. -/
def calculate_confidence (evidence : List Evidence) : ℚ :=
  match evidence with
  | [] => 0
  | e :: _ =>
    let top_score := e.similarity_score
    let avg_authority :=
      ((evidence.take 3).map (fun x => authorityWeight x.doc_type)).sum /
        ((min evidence.length 3 : ℕ) : ℚ)
    let count_factor := min ((evidence.length : ℚ) / 3) 1
    min (1/2 * top_score + 3/10 * avg_authority + 1/5 * count_factor) (49/50)

/-- The scorer formula exactly as the specification words it, for comparison
with `calculate_confidence`: the authority term averages over the first three
items (dividing by how many of them exist). -/
def confidence_spec (evidence : List Evidence) : ℚ :=
  match evidence with
  | [] => 0
  | e :: _ =>
    let avg_authority :=
      ((evidence.take 3).map (fun x => authorityWeight x.doc_type)).sum /
        (((evidence.take 3).length : ℕ) : ℚ)
    min (1/2 * e.similarity_score + 3/10 * avg_authority +
      1/5 * min ((evidence.length : ℚ) / 3) 1) (49/50)

/-- `ANSWERABILITY_PENALTY = 0.5` (src/agents/knowledge_agent.py). -/
def ANSWERABILITY_PENALTY : ℚ := 1/2

/-- `QA_LIBRARY_BOOST = 0.15` (src/agents/knowledge_agent.py). -/
def QA_LIBRARY_BOOST : ℚ := 3/20

/-- Step 5 of `KnowledgeAgent.answer_question`: the raw heuristic score is
multiplied by `ANSWERABILITY_PENALTY` when the answerability check reports
that the evidence does not answer the question, and is used unchanged
otherwise. -/
def adjusted_confidence (answers_question : Bool) (raw_confidence : ℚ) : ℚ :=
  if answers_question then raw_confidence
  else raw_confidence * ANSWERABILITY_PENALTY

/-- Whether `pat` occurs as a contiguous subsequence of `l`. -/
def containsSeq (pat : List Char) : List Char → Bool
  | [] => pat.isEmpty
  | c :: cs => pat.isPrefixOf (c :: cs) || containsSeq pat cs

/-- Python substring containment, `pat in s`. -/
def strContains (s pat : String) : Bool := containsSeq pat.toList s.toList

/-- Python `str.lower()` (character-wise lowering). -/
def pyLower (s : String) : String := String.mk (s.toList.map Char.toLower)

/-- Tokenizer of Python `str.split()` with no argument: whitespace runs
separate tokens, no empty tokens are produced. -/
def splitWsAux : List Char → List Char → List (List Char)
  | [], acc => if acc.isEmpty then [] else [acc.reverse]
  | c :: cs, acc =>
    if c.isWhitespace then
      if acc.isEmpty then splitWsAux cs [] else acc.reverse :: splitWsAux cs []
    else splitWsAux cs (c :: acc)

/-- Python `str.strip()`: drop whitespace from both ends. -/
def pyStrip (s : String) : String :=
  String.mk (((s.toList.dropWhile Char.isWhitespace).reverse.dropWhile
    Char.isWhitespace).reverse)

/-- Python `sep.join(parts)`. -/
def joinSep (sep : List Char) : List (List Char) → List Char
  | [] => []
  | [x] => x
  | x :: y :: rest => x ++ sep ++ joinSep sep (y :: rest)

/-- Python `sep.join(parts)` on strings. -/
def pyJoin (sep : String) (parts : List String) : String :=
  String.mk (joinSep sep.toList (parts.map String.toList))

/-- Python single-character `str.replace(a, b)`. -/
def pyReplaceChar (s : String) (a b : Char) : String :=
  String.mk (s.toList.map (fun c => if c == a then b else c))

/-- Python `str.split(sep)` for a non-empty separator, with fuel for
structural recursion; each step consumes one unit of fuel and at least one
character, so fuel `length + 1` never runs out. -/
def splitOnFuel (sep : List Char) : Nat → List Char → List Char → List (List Char)
  | 0, rest, acc => [acc.reverse ++ rest]
  | _ + 1, [], acc => [acc.reverse]
  | n + 1, c :: cs, acc =>
    if sep.isPrefixOf (c :: cs) then
      acc.reverse :: splitOnFuel sep n (List.drop sep.length (c :: cs)) []
    else splitOnFuel sep n cs (c :: acc)

/-- Python `s.split(sep)` on strings (separator assumed non-empty, as at
every call site). -/
def pySplitOn (s sep : String) : List String :=
  (splitOnFuel sep.toList (s.toList.length + 1) s.toList []).map String.mk

/-- Keyword table of `KnowledgeAgent._normalize_question`
(src/src/agents/knowledge_agent.py), in source (= dict insertion) order. -/
def category_keywords : List (String × List String) :=
  [("encryption", ["encrypt", "aes", "kms", "key management", "data at rest",
      "in transit", "tls", "ssl"]),
   ("authentication", ["auth", "mfa", "multi-factor", "password", "login",
      "sso", "saml", "oauth"]),
   ("access_control", ["access control", "rbac", "permission", "privilege",
      "least privilege"]),
   ("compliance", ["soc 2", "soc2", "gdpr", "hipaa", "iso 27001",
      "compliance", "certification", "audit"]),
   ("incident_response", ["incident", "breach", "notification", "response"]),
   ("data_handling", ["data retention", "backup", "deletion", "processing",
      "dpa"]),
   ("logging", ["log", "audit trail", "monitoring"]),
   ("network", ["network", "firewall", "vpc", "segmentation"])]

/-- First category whose keyword list matches the lowered question text;
`"other"` when none matches (the `for ... break` loop of the source). -/
def categorize (question_lower : String) : String :=
  match category_keywords.find?
      (fun p => p.2.any (fun kw => strContains question_lower kw)) with
  | some p => p.1
  | none => "other"

/-- Python `str.split()` with no argument: split on whitespace runs,
discarding empty tokens. -/
def whitespaceTokens (s : String) : List String :=
  (splitWsAux s.toList []).map String.mk

/-- The two `.replace` calls of the fingerprint: remove every question mark
and every apostrophe character (code 39). -/
def stripPunct (s : String) : String :=
  String.mk (s.toList.filter (fun c => !(c == Char.ofNat 63 || c == Char.ofNat 39)))

/-- The first five whitespace-separated tokens of the lowercased question,
`question_lower.split()[:5]`. -/
def tokens5 (question : String) : List String :=
  (whitespaceTokens (pyLower question)).take 5

/-- Output of question normalization. -/
structure NormalizedQuestion where
  fingerprint : String
  category : String
  intent : String
deriving DecidableEq, Repr

/-- `KnowledgeAgent._normalize_question` (src/src/agents/knowledge_agent.py):
purely keyword-based category plus a fingerprint built from the first five
words of the lowercased text. -/
def normalize_question (question : String) : NormalizedQuestion :=
  { fingerprint := stripPunct (pyJoin "_" (tokens5 question)),
    category := categorize (pyLower question),
    intent := question }

/-- `KnowledgeAgent._normalize_question` (src/agents/knowledge_agent.py):
one LLM call whose parsed JSON is the result; the completion together with
its JSON parse is the oracle (`none` covers every exception), and the
`except` branch builds the deterministic fallback from text prefixes. -/
def normalize_question_llm (llm_parse : String → Option NormalizedQuestion)
    (question : String) : NormalizedQuestion :=
  match llm_parse question with
  | some n => n
  | none =>
    { intent := String.mk (question.toList.take 50),
      fingerprint :=
        pyReplaceChar (pyLower (String.mk (question.toList.take 30))) ' ' (Char.ofNat 95),
      category := "other" }

/-- A record of the `qa_library` collection, as written by
`learn_from_feedback` and projected by `_check_qa_library`. -/
structure QARecord where
  id : String
  question_fingerprint : String
  question_text : String
  answer : String
  evidence_source : String
  category : String
  confidence : ℚ
deriving DecidableEq, Repr

/-- `KnowledgeAgent._check_qa_library`: exact fingerprint `find_one` first;
on miss the semantic search (embedding call plus `$vectorSearch`, an external
call that may raise) is consulted and its top hit accepted only with score
strictly above `0.85`; any search exception is caught and yields `none`. -/
def check_qa_library (store : List QARecord)
    (semantic_search : Except String (List (QARecord × ℚ)))
    (fingerprint : String) : Option QARecord :=
  match store.find? (fun r => r.question_fingerprint == fingerprint) with
  | some r => some r
  | none =>
    match semantic_search with
    | .error _ => none
    | .ok [] => none
    | .ok ((r, score) :: _) => if 17/20 < score then some r else none

/-- `replace_one({_id}, record, upsert=True)`: replace the record with the
same `_id`, or append when none exists. -/
def upsertById : List QARecord → QARecord → List QARecord
  | [], r => [r]
  | x :: xs, r => if x.id == r.id then r :: xs else x :: upsertById xs r

/-- `KnowledgeAgent.learn_from_feedback`: normalize the question, build the
QA record (confidence `0.95`, `_id = "qa_" ++ fingerprint`) and upsert it;
returns the updated store together with the fingerprint. -/
def learn_from_feedback (store : List QARecord)
    (question approved_answer evidence_source : String) :
    List QARecord × String :=
  let normalized := normalize_question question
  let qa_record : QARecord :=
    { id := "qa_" ++ normalized.fingerprint,
      question_fingerprint := normalized.fingerprint,
      question_text := question,
      answer := approved_answer,
      evidence_source := evidence_source,
      category := normalized.category,
      confidence := 19/20 }
  (upsertById store qa_record, normalized.fingerprint)

/-- The knowledge-agent response (`AgentResponse` in
src/agents/knowledge_agent.py). -/
structure AgentResponse where
  question : String
  answer : String
  confidence : ℚ
  source_type : String
  evidence : List Evidence
  reasoning : String
  needs_escalation : Bool
  category : Option String
  escalation_reason : Option String
deriving DecidableEq, Repr

/-- Rendering of a rational score inside reasoning strings (the source
formats floats with two decimals; the exact numeral spelling is immaterial
to every property, only that it is a function of the score). -/
def showScore (q : ℚ) : String := toString q.num ++ "/" ++ toString q.den

/-- `KnowledgeAgent._build_response_from_qa`: the reported confidence is the
stored confidence plus `QA_LIBRARY_BOOST`, capped at `0.99`; the response is
not flagged for escalation. -/
def build_response_from_qa (question : String) (qa : QARecord)
    (category : Option String) : AgentResponse :=
  { question := question,
    answer := qa.answer,
    confidence := min (qa.confidence + QA_LIBRARY_BOOST) (99/100),
    source_type := "qa_library",
    evidence := [{ text := qa.answer, doc_title := qa.evidence_source,
                   doc_type := "verified", sect := none,
                   similarity_score := 1 }],
    reasoning := "Found verified answer in QA library (fingerprint: " ++
      qa.question_fingerprint ++
      "). This answer has been human-verified and is reusable.",
    needs_escalation := false,
    category := category,
    escalation_reason := none }

/-- `KnowledgeAgent._build_escalation_response`: always flagged for
escalation, with the reason picked as in the source. -/
def build_escalation_response (question : String) (evidence : List Evidence)
    (confidence : ℚ) (confidence_threshold : ℚ) (category : Option String)
    (custom_reason : Option String) : AgentResponse :=
  let reason :=
    match custom_reason with
    | some r => r
    | none =>
      if evidence = [] then "No relevant evidence found in knowledge base"
      else if confidence < 2/5 then "Evidence is weak or not directly relevant"
      else "Evidence found but confidence below threshold - needs human verification"
  { question := question,
    answer := "[REQUIRES HUMAN REVIEW]",
    confidence := confidence,
    source_type := "escalate",
    evidence := evidence.take 3,
    reasoning := "Confidence " ++ showScore confidence ++
      " is below threshold " ++ showScore confidence_threshold ++
      ". Escalating for human review.",
    needs_escalation := true,
    category := category,
    escalation_reason := some reason }

/-- `KnowledgeAgent._draft_answer`: the drafted text comes from the LLM call
(passed in here); the response is not flagged for escalation. -/
def draft_answer_response (question : String) (evidence : List Evidence)
    (confidence : ℚ) (category : Option String) (drafted : String) :
    AgentResponse :=
  { question := question,
    answer := drafted,
    confidence := confidence,
    source_type := "vector_search",
    evidence := evidence.take 3,
    reasoning := "Drafted answer from " ++ toString evidence.length ++
      " evidence chunks.",
    needs_escalation := false,
    category := category,
    escalation_reason := none }

/-- `KnowledgeAgent.answer_question` (src/agents/knowledge_agent.py), the
decision loop after the external results are in: QA-library hit, otherwise
score the evidence, apply the answerability penalty, and either escalate
(confidence below threshold) or draft. -/
def answer_question (confidence_threshold : ℚ) (question : String)
    (category : Option String) (qa_match : Option QARecord)
    (evidence : List Evidence) (answers_question : Bool)
    (answerability_reasoning : String) (drafted : String) : AgentResponse :=
  match qa_match with
  | some qa => build_response_from_qa question qa category
  | none =>
    let raw_confidence := calculate_confidence evidence
    let confidence := adjusted_confidence answers_question raw_confidence
    if confidence < confidence_threshold then
      let escalation_reason :=
        if answers_question then
          "Confidence below threshold - needs human verification"
        else
          "Evidence is topically related but does not answer the question: " ++
            answerability_reasoning
      build_escalation_response question evidence confidence
        confidence_threshold category (some escalation_reason)
    else
      draft_answer_response question evidence confidence category drafted

/-- A question of the orchestrated questionnaire (`Question` model). -/
structure QuestionM where
  question_id : String
  question_text : String
  category : Option String
deriving DecidableEq, Repr

/-- A context document (`ContextDocument` model). -/
structure ContextDocM where
  doc_id : String
  title : String
  content : String
  source : String
deriving DecidableEq, Repr

/-- A citation (`Citation` model). -/
structure CitationM where
  doc_id : String
  doc_title : String
  relevant_excerpt : String
  relevance_score : ℚ
deriving DecidableEq, Repr

/-- Output of the citation agent (`CitationResult` model). -/
structure CitationResultM where
  question_id : String
  citations : List CitationM
deriving DecidableEq, Repr

/-- Output of the drafting agent (`DraftResult` model); the confidence level
string is one of high, medium, low. -/
structure DraftResultM where
  question_id : String
  answer : String
  confidence : String
  confidence_score : ℚ
  reasoning : Option String
deriving DecidableEq, Repr

/-- Results of the per-question external calls made inside
`QuestionnaireOrchestrator._process_batch`: the knowledge retrieval, the
citation agent and the drafting agent each either return or raise. -/
structure QuestionOutcome where
  knowledge : Except String (List ContextDocM)
  citation : Except String CitationResultM
  draft : Except String DraftResultM
deriving Repr

/-- A per-question answer record of the response (`QuestionAnswer` model). -/
structure QuestionAnswerM where
  question_id : String
  question_text : String
  answer : String
  confidence : String
  confidence_score : ℚ
  citations : List CitationM
  reasoning : Option String
  needs_escalation : Bool
  escalation_reason : Option String
  category : Option String
deriving DecidableEq, Repr

/-- `int(draft_result.confidence_score * 100)` of the source; scores are
nonnegative where it is used, so truncation agrees with the floor. -/
def confidencePct (score : ℚ) : Int := Int.floor (score * 100)

/-- The escalation reason chosen in `_process_batch` when the draft
confidence falls below the threshold. -/
def orchestrator_escalation_reason (score : ℚ) : String :=
  if score < 3/10 then
    "Very low confidence (" ++ toString (confidencePct score) ++
      "%) - insufficient documentation found"
  else if score < 1/2 then
    "Low confidence (" ++ toString (confidencePct score) ++
      "%) - requires human verification"
  else
    "Medium confidence (" ++ toString (confidencePct score) ++
      "%) - may need additional review"

/-- One iteration of `QuestionnaireOrchestrator._process_batch`: only the
knowledge-agent call is wrapped in try/except (a failure leaves
`knowledge_result = None` and processing continues with the input context
documents); the citation and drafting calls are not wrapped, so their
exceptions propagate out of the loop. -/
def process_question (confidence_threshold : ℚ) (q : QuestionM)
    (oc : QuestionOutcome) : Except String QuestionAnswerM :=
  let _knowledge_result : Option (List ContextDocM) :=
    match oc.knowledge with
    | .ok docs => some docs
    | .error _ => none
  match oc.citation with
  | .error e => .error e
  | .ok citation_result =>
    match oc.draft with
    | .error e => .error e
    | .ok draft_result =>
      let needs_escalation := decide (draft_result.confidence_score < confidence_threshold)
      .ok { question_id := q.question_id,
            question_text := q.question_text,
            answer := draft_result.answer,
            confidence := draft_result.confidence,
            confidence_score := draft_result.confidence_score,
            citations := citation_result.citations,
            reasoning := draft_result.reasoning,
            needs_escalation := needs_escalation,
            escalation_reason :=
              if needs_escalation then
                some (orchestrator_escalation_reason draft_result.confidence_score)
              else none,
            category := q.category }

/-- `_process_batch`: the sequential loop over the questions of one batch;
the first uncaught exception aborts the whole batch (the Python coroutine
raises and every accumulated answer of the batch is lost). -/
def process_batch (confidence_threshold : ℚ) :
    List (QuestionM × QuestionOutcome) → Except String (List QuestionAnswerM)
  | [] => .ok []
  | (q, oc) :: rest =>
    match process_question confidence_threshold q oc with
    | .error e => .error e
    | .ok a =>
      match process_batch confidence_threshold rest with
      | .error e => .error e
      | .ok as => .ok (a :: as)

/-- The escalation test the orchestrator applies to a draft confidence
score: `draft_result.confidence_score < self.config.confidence_threshold`. -/
def needs_escalation_decision (confidence_threshold score : ℚ) : Bool :=
  decide (score < confidence_threshold)

/-- The decision object returned by `_check_with_firework` (parsed LLM
output, or the threshold-based fallback). -/
structure FireworkDecision where
  requires_escalation : Bool
  reason : Option String
  department : Option String
deriving DecidableEq, Repr

/-- Per-answer escalation decision of `EscalationAgent.process_answers`
(src/src/agents/escalation_agent.py): an upstream `needs_escalation` flag
forces escalation unconditionally; otherwise the threshold test is OR-ed
with the Fireworks decision. -/
def process_answer_escalation (confidence_threshold : ℚ)
    (answer_needs_escalation : Bool) (confidence_score : ℚ)
    (firework : FireworkDecision) : Bool :=
  if answer_needs_escalation then true
  else decide (confidence_score < confidence_threshold) || firework.requires_escalation

/-- An employee-directory record (`EmployeeRecord` model). -/
structure EmployeeRecord where
  id : String
  name : String
  email : String
  role : String
  department : String
  expertise_areas : List String
deriving DecidableEq, Repr

/-- Case-insensitive substring match: the Mongo
`$regex pattern, $options i` queries with a plain-word pattern. -/
def matchCI (pat s : String) : Bool := strContains (pyLower s) (pyLower pat)

/-- Mongo `find_one(filter)` modelled as the first match in the collection
list. -/
def findOne (employees : List EmployeeRecord) (p : EmployeeRecord → Bool) :
    Option EmployeeRecord := employees.find? p

/-- `EscalationAgent._suggest_department_from_category`
(src/src/agents/escalation_agent.py): substring lookup in the static table,
defaulting to Security; `None` only for a missing category. -/
def suggest_department_v2 (category : Option String) : Option String :=
  match category with
  | none => none
  | some c =>
    let cl := pyLower c
    let table : List (String × String) :=
      [("authentication", "Security"), ("authorization", "Security"),
       ("encryption", "Security"), ("data_protection", "Security"),
       ("data_handling", "Security"), ("access_control", "Security"),
       ("api_security", "Engineering"), ("network_security", "Security"),
       ("compliance", "Compliance"), ("incident_response", "Security"),
       ("logging", "Engineering"), ("infrastructure", "Engineering"),
       ("database", "Engineering")]
    match table.find? (fun p => strContains cl p.1) with
    | some p => some p.2
    | none => some "Security"

/-- `EscalationAgent._suggest_department_from_category`
(src/agents/escalation_agent.py): same shape, different table. -/
def suggest_department_v1 (category : Option String) : Option String :=
  match category with
  | none => none
  | some c =>
    let cl := pyLower c
    let table : List (String × String) :=
      [("authentication", "Security"), ("authorization", "Security"),
       ("encryption", "Security"), ("data-protection", "Security"),
       ("api-security", "Engineering"), ("network-security", "Security"),
       ("compliance", "Compliance"), ("gdpr", "Compliance"),
       ("soc2", "Compliance"), ("infrastructure", "Engineering"),
       ("database", "Engineering"), ("devops", "Engineering")]
    match table.find? (fun p => strContains cl p.1) with
    | some p => some p.2
    | none => some "Security"

/-- `EscalationAgent._route_to_employee`
(src/src/agents/escalation_agent.py): a four-step fallback chain - expertise
match, department match, Security-department match, then an unconditional
`find_one(empty filter)`; `none` when the database handle is absent. -/
def route_to_employee_v2 (db_connected : Bool)
    (employees : List EmployeeRecord) (category : Option String)
    (suggested_department : Option String) : Option EmployeeRecord :=
  let department :=
    (suggested_department.orElse (fun _ => suggest_department_v2 category)).getD "Security"
  if !db_connected then none
  else
    let s1 :=
      match category with
      | some cat =>
        findOne employees (fun e => e.expertise_areas.any (fun a => matchCI cat a))
      | none => none
    match s1 with
    | some e => some e
    | none =>
      match findOne employees (fun e => matchCI department e.department) with
      | some e => some e
      | none =>
        match findOne employees (fun e => matchCI "security" e.department) with
        | some e => some e
        | none => findOne employees (fun _ => true)

/-- `EscalationAgent._route_to_employee` (src/agents/escalation_agent.py):
a three-step chain with no unconditional fallback; its last resort requires
the exact department "Security" or a non-empty expertise list. -/
def route_to_employee_v1 (employees : List EmployeeRecord)
    (category : Option String) (suggested_department : Option String) :
    Option EmployeeRecord :=
  let department :=
    (suggested_department.orElse (fun _ => suggest_department_v1 category)).getD "Security"
  let s1 :=
    match category with
    | some cat =>
      findOne employees (fun e =>
        e.expertise_areas.any (fun a => matchCI cat a) ||
          matchCI department e.department)
    | none => findOne employees (fun e => matchCI department e.department)
  match s1 with
  | some e => some e
  | none =>
    match findOne employees (fun e => matchCI department e.department) with
    | some e => some e
    | none =>
      findOne employees (fun e =>
        e.department == "Security" || !e.expertise_areas.isEmpty)

/-- The structured payload `parse_json_response` is expected to produce. -/
structure ParsedDraft where
  answer : String
  confidence : String
  confidence_score : ℚ
  citations : List CitationM
  reasoning : String
deriving DecidableEq, Repr

/-- Markdown code-fence stripping of `FireworksClient.parse_json_response`:
`content.split("```json")[1].split("```")[0]`, falling back to plain
triple-backtick fences, and no change when no fence occurs. -/
def stripCodeFences (content : String) : String :=
  if strContains content "```json" then
    pySplitOn ((pySplitOn content "```json").getD 1 "") "```" |>.getD 0 ""
  else if strContains content "```" then
    pySplitOn ((pySplitOn content "```").getD 1 "") "```" |>.getD 0 ""
  else content

/-- `FireworksClient.parse_json_response` (src/src/core/llm_client.py):
strip fences, `json.loads` the trimmed text (the parse is the external
oracle), and on a parse error return the fixed low-confidence fallback
structure instead of raising. -/
def parse_json_response (json_loads : String → Except String ParsedDraft)
    (content : String) : ParsedDraft :=
  match json_loads (pyStrip (stripCodeFences content)) with
  | .ok d => d
  | .error e =>
    { answer := "Unable to parse response",
      confidence := "low",
      confidence_score := 1/10,
      citations := [],
      reasoning := "JSON parse error: " ++ e }

/-! ## Helper lemmas -/

lemma authorityWeight_nonneg (d : String) : 0 ≤ authorityWeight d := by
  unfold authorityWeight
  split_ifs <;> norm_num

lemma calculate_confidence_cons (e : Evidence) (es : List Evidence) :
    calculate_confidence (e :: es) =
      min (1/2 * e.similarity_score +
        3/10 * (((List.take 3 (e :: es)).map (fun x => authorityWeight x.doc_type)).sum /
          ((min (e :: es).length 3 : ℕ) : ℚ)) +
        1/5 * min (((e :: es).length : ℚ) / 3) 1) (49/50) := rfl

lemma confidence_spec_cons (e : Evidence) (es : List Evidence) :
    confidence_spec (e :: es) =
      min (1/2 * e.similarity_score +
        3/10 * (((List.take 3 (e :: es)).map (fun x => authorityWeight x.doc_type)).sum /
          (((List.take 3 (e :: es)).length : ℕ) : ℚ)) +
        1/5 * min (((e :: es).length : ℚ) / 3) 1) (49/50) := rfl

/-- A concrete evidence list: three policy-backed chunks led by
similarity 0.9. -/
def cPolicyEvidence : List Evidence :=
  [{ text := "chunk a", doc_title := "Policy A", doc_type := "policy",
     sect := none, similarity_score := 9/10 },
   { text := "chunk b", doc_title := "Policy B", doc_type := "policy",
     sect := none, similarity_score := 7/10 },
   { text := "chunk c", doc_title := "Policy C", doc_type := "policy",
     sect := none, similarity_score := 3/5 }]

/-! ## Claim theorems -/

/-- C2: for evidence whose similarity scores lie in [0,1] the confidence
scorer agrees with the spec formula (0.5 times the top similarity plus 0.3
times the average authority of the first three items plus 0.2 times
min(length/3, 1), clamped at 0.98), its value lies in [0, 0.98], the empty
list scores exactly 0, and three policy-backed items led by similarity 0.9
score exactly 0.89. -/
theorem C2_confidence_score (evidence : List Evidence)
    (h : ∀ e ∈ evidence, 0 ≤ e.similarity_score ∧ e.similarity_score ≤ 1) :
    calculate_confidence evidence = confidence_spec evidence ∧
    0 ≤ calculate_confidence evidence ∧
    calculate_confidence evidence ≤ 49/50 ∧
    calculate_confidence [] = 0 ∧
    calculate_confidence cPolicyEvidence = 89/100 := by
  refine ⟨?_, ?_, ?_, rfl, ?_⟩
  · cases evidence with
    | nil => rfl
    | cons e es =>
      rw [calculate_confidence_cons, confidence_spec_cons, List.length_take,
        Nat.min_comm]
  · cases evidence with
    | nil => norm_num [calculate_confidence]
    | cons e es =>
      rw [calculate_confidence_cons]
      have h0 : 0 ≤ e.similarity_score := (h e (List.mem_cons_self e es)).1
      have hsum : 0 ≤ ((List.take 3 (e :: es)).map
          (fun x => authorityWeight x.doc_type)).sum := by
        apply List.sum_nonneg
        intro x hx
        rcases List.mem_map.mp hx with ⟨y, _, rfl⟩
        exact authorityWeight_nonneg y.doc_type
      have hden : (0:ℚ) ≤ ((min (e :: es).length 3 : ℕ) : ℚ) := Nat.cast_nonneg _
      have hcf : (0:ℚ) ≤ min (((e :: es).length : ℚ) / 3) 1 :=
        le_min (div_nonneg (Nat.cast_nonneg _) (by norm_num)) zero_le_one
      refine le_min ?_ (by norm_num)
      have t1 : (0:ℚ) ≤ 1/2 * e.similarity_score := mul_nonneg (by norm_num) h0
      have t2 : (0:ℚ) ≤ 3/10 * (((List.take 3 (e :: es)).map
          (fun x => authorityWeight x.doc_type)).sum /
            ((min (e :: es).length 3 : ℕ) : ℚ)) :=
        mul_nonneg (by norm_num) (div_nonneg hsum hden)
      have t3 : (0:ℚ) ≤ 1/5 * min (((e :: es).length : ℚ) / 3) 1 :=
        mul_nonneg (by norm_num) hcf
      linarith
  · cases evidence with
    | nil => norm_num [calculate_confidence]
    | cons e es =>
      rw [calculate_confidence_cons]
      exact min_le_right _ _
  · have hp : authorityWeight "policy" = 4/5 := rfl
    simp only [cPolicyEvidence, calculate_confidence, List.take, List.map,
      List.sum_cons, List.sum_nil, List.length, hp]
    norm_num [min_def]

/-- Witness for C2 at the concrete three-item policy evidence list. -/
theorem C2_witness :
    calculate_confidence cPolicyEvidence = confidence_spec cPolicyEvidence ∧
    0 ≤ calculate_confidence cPolicyEvidence ∧
    calculate_confidence cPolicyEvidence ≤ 49/50 ∧
    calculate_confidence [] = 0 ∧
    calculate_confidence cPolicyEvidence = 89/100 :=
  C2_confidence_score cPolicyEvidence (by intro e he; fin_cases he <;> norm_num)

/-- C5: when the answerability check returns false the confidence used for
the escalation decision is the raw score times exactly 0.5, hence at most
the raw score for nonnegative raw scores; when it returns true the raw
score is used unchanged. -/
theorem C5_answerability_penalty (raw : ℚ) (h : 0 ≤ raw) :
    adjusted_confidence false raw = raw * (1/2) ∧
    adjusted_confidence false raw ≤ raw ∧
    adjusted_confidence true raw = raw := by
  refine ⟨rfl, ?_, rfl⟩
  have he : adjusted_confidence false raw = raw * (1/2) := rfl
  rw [he]
  linarith

/-- Witness for C5 at raw score 0.8. -/
theorem C5_witness :
    adjusted_confidence false (4/5) = (4/5) * (1/2) ∧
    adjusted_confidence false (4/5) ≤ 4/5 ∧
    adjusted_confidence true (4/5) = 4/5 :=
  C5_answerability_penalty (4/5) (by norm_num)

/-- A concrete QA-library record with stored confidence 0.85. -/
def cQaRecord : QARecord :=
  { id := "qa_do_you_have_soc_2", question_fingerprint := "do_you_have_soc_2",
    question_text := "Do you have SOC 2 certification?",
    answer := "Yes, SOC 2 Type II.", evidence_source := "SOC2 Report",
    category := "compliance", confidence := 17/20 }

/-- C8: a verified-answer cache hit reports confidence
min(stored + 0.15, 0.99); for nonnegative stored confidence the result lies
in [0, 0.99] and stays strictly below 1, and a stored confidence of 0.85 is
boosted to exactly 0.99. -/
theorem C8_qa_boost (question : String) (qa : QARecord)
    (h : 0 ≤ qa.confidence) :
    (build_response_from_qa question qa none).confidence =
      min (qa.confidence + 3/20) (99/100) ∧
    0 ≤ (build_response_from_qa question qa none).confidence ∧
    (build_response_from_qa question qa none).confidence ≤ 99/100 ∧
    (build_response_from_qa question qa none).confidence < 1 ∧
    (qa.confidence = 17/20 →
      (build_response_from_qa question qa none).confidence = 99/100) := by
  have hc : (build_response_from_qa question qa none).confidence =
      min (qa.confidence + 3/20) (99/100) := rfl
  refine ⟨hc, ?_, ?_, ?_, ?_⟩
  · rw [hc]
    exact le_min (by linarith) (by norm_num)
  · rw [hc]
    exact min_le_right _ _
  · rw [hc]
    calc min (qa.confidence + 3/20) (99/100) ≤ 99/100 := min_le_right _ _
      _ < 1 := by norm_num
  · intro he
    rw [hc, he]
    norm_num [min_def]

/-- Witness for C8 at a stored confidence of 0.85. -/
theorem C8_witness :
    (build_response_from_qa "Do you have SOC 2 certification?" cQaRecord
      none).confidence = min (17/20 + 3/20) (99/100) ∧
    (build_response_from_qa "Do you have SOC 2 certification?" cQaRecord
      none).confidence = 99/100 := by
  have h := C8_qa_boost "Do you have SOC 2 certification?" cQaRecord
    (by norm_num [cQaRecord])
  exact ⟨h.1, h.2.2.2.2 rfl⟩

/-- C9: when the (fence-stripped, trimmed) LLM content does not parse as
JSON, `parse_json_response` returns - without raising - the fixed fallback
with confidence score 0.1, confidence level low, empty citations and a
reasoning string recording the parse error; any escalation threshold above
0.1 then forces the orchestrator escalation test to true. -/
theorem C9_parse_fallback (json_loads : String → Except String ParsedDraft)
    (content e : String)
    (h : json_loads (pyStrip (stripCodeFences content)) = .error e) :
    parse_json_response json_loads content =
      { answer := "Unable to parse response", confidence := "low",
        confidence_score := 1/10, citations := [],
        reasoning := "JSON parse error: " ++ e } ∧
    ∀ threshold : ℚ, 1/10 < threshold →
      needs_escalation_decision threshold
        (parse_json_response json_loads content).confidence_score = true := by
  have hp : parse_json_response json_loads content =
      { answer := "Unable to parse response", confidence := "low",
        confidence_score := 1/10, citations := [],
        reasoning := "JSON parse error: " ++ e } := by
    unfold parse_json_response
    rw [h]
  refine ⟨hp, fun t ht => ?_⟩
  rw [hp]
  exact decide_eq_true ht

/-- Witness for C9 on unparseable content under the default orchestrator
threshold 0.5. -/
theorem C9_witness :
    parse_json_response (fun _ => .error "Expecting value") "this is not json" =
      { answer := "Unable to parse response", confidence := "low",
        confidence_score := 1/10, citations := [],
        reasoning := "JSON parse error: " ++ "Expecting value" } ∧
    needs_escalation_decision (1/2)
      (parse_json_response (fun _ => .error "Expecting value")
        "this is not json").confidence_score = true := by
  have h := C9_parse_fallback (fun _ => .error "Expecting value")
    "this is not json" "Expecting value" rfl
  exact ⟨h.1, h.2 (1/2) (by norm_num)⟩

/-- Two parsed LLM payloads that differ only in the fingerprint the model
chose. -/
def cNormA : NormalizedQuestion :=
  { fingerprint := "encryption_at_rest", category := "encryption",
    intent := "asks about encryption at rest" }

/-- Second parsed LLM payload for the same question text. -/
def cNormB : NormalizedQuestion :=
  { fingerprint := "data_at_rest_encryption", category := "encryption",
    intent := "asks about encryption at rest" }

/-- C4 counterexample: the LLM-backed normalizer of
src/agents/knowledge_agent.py is not deterministic in the question text:
two calls on the identical text whose LLM completions differ yield
different fingerprints. -/
theorem C4_counterexample :
    (normalize_question_llm (fun _ => some cNormA)
        "Do you encrypt data at rest?").fingerprint ≠
      (normalize_question_llm (fun _ => some cNormB)
        "Do you encrypt data at rest?").fingerprint := by
  decide

/-- C4 (amended): the keyword-based normalizer of
src/src/agents/knowledge_agent.py is a pure function of the text - two runs
on identical text give the identical fingerprint and category - and the
LLM-backed normalizer is deterministic relative to a fixed LLM response
function. -/
theorem C4_normalizer_two_runs (q1 q2 : String)
    (llm_parse : String → Option NormalizedQuestion) (h : q1 = q2) :
    normalize_question q1 = normalize_question q2 ∧
    normalize_question_llm llm_parse q1 = normalize_question_llm llm_parse q2 := by
  subst h
  exact ⟨rfl, rfl⟩

/-- Witness for C4 at a concrete question. -/
theorem C4_witness :
    normalize_question "Do you use MFA?" = normalize_question "Do you use MFA?" ∧
    normalize_question_llm (fun _ => none) "Do you use MFA?" =
      normalize_question_llm (fun _ => none) "Do you use MFA?" :=
  C4_normalizer_two_runs "Do you use MFA?" "Do you use MFA?" (fun _ => none) rfl

/-- C1 (amended): the escalation flag across the three stages. In
`KnowledgeAgent.answer_question` the flag is true exactly when there is no
cache hit and the judge-adjusted confidence (raw score halved on a
"related" verdict) falls below the configured threshold - the judge verdict
influences the flag only through that penalty. In the orchestrator the flag
is exactly the threshold test on the draft confidence. In
`EscalationAgent.process_answers` the flag is the disjunction of the
upstream flag, the threshold test and the Fireworks decision; in particular
an upstream true flag is never reset to false. -/
theorem C1_escalation_flag (threshold : ℚ) (question : String)
    (category : Option String) (qa_match : Option QARecord)
    (evidence : List Evidence) (answers_question : Bool)
    (answerability_reasoning : String) (drafted : String) (score : ℚ)
    (flag : Bool) (firework : FireworkDecision) :
    ((answer_question threshold question category qa_match evidence
        answers_question answerability_reasoning drafted).needs_escalation = true ↔
      qa_match = none ∧
        adjusted_confidence answers_question (calculate_confidence evidence) <
          threshold) ∧
    needs_escalation_decision threshold score = decide (score < threshold) ∧
    process_answer_escalation threshold flag score firework =
      (flag || decide (score < threshold) || firework.requires_escalation) ∧
    process_answer_escalation threshold true score firework = true := by
  refine ⟨?_, rfl, ?_, rfl⟩
  · cases qa_match with
    | some qa => simp [answer_question, build_response_from_qa]
    | none =>
      by_cases hlt :
        adjusted_confidence answers_question (calculate_confidence evidence) <
          threshold
      · simp [answer_question, hlt, build_escalation_response]
      · simp [answer_question, hlt, draft_answer_response]
  · cases flag <;> rfl

/-- Three SOC2-backed evidence chunks of similarity 1 (raw score 0.98). -/
def cSoc2Evidence : List Evidence :=
  [{ text := "a", doc_title := "SOC2 Report", doc_type := "soc2",
     sect := none, similarity_score := 1 },
   { text := "b", doc_title := "SOC2 Report", doc_type := "soc2",
     sect := none, similarity_score := 1 },
   { text := "c", doc_title := "SOC2 Report", doc_type := "soc2",
     sect := none, similarity_score := 1 }]

/-- C1 counterexample: (a) `process_answers` sets the flag on a Fireworks
verdict although the confidence 0.9 is not below the threshold 0.7 and no
upstream stage flagged escalation - a reason outside the claimed
disjunction; (b) with a configured threshold of 0.4 a "related" judge
verdict does not set the flag (raw 0.98 is halved to 0.49, still at or
above the threshold), so the flag is not true whenever the judge says
"related". -/
theorem C1_counterexample :
    process_answer_escalation (7/10) false (9/10)
      { requires_escalation := true, reason := none, department := none } =
      true ∧
    ¬((9:ℚ)/10 < 7/10) ∧
    (answer_question (2/5) "Can you sign our custom DPA?" none none
        cSoc2Evidence false "describes the wrong direction of the relationship"
        "drafted answer").needs_escalation = false := by
  refine ⟨?_, by norm_num, ?_⟩
  · have : process_answer_escalation (7/10) false (9/10)
        { requires_escalation := true, reason := none, department := none } =
        (decide ((9:ℚ)/10 < 7/10) || true) := rfl
    rw [this, decide_eq_false (by norm_num : ¬((9:ℚ)/10 < 7/10))]
    rfl
  · have hraw : calculate_confidence cSoc2Evidence = 49/50 := by
      have hs : authorityWeight "soc2" = 1 := rfl
      simp only [cSoc2Evidence, calculate_confidence, List.take, List.map,
        List.sum_cons, List.sum_nil, List.length, hs]
      norm_num [min_def]
    have hadj : adjusted_confidence false (calculate_confidence cSoc2Evidence) =
        49/100 := by
      rw [hraw]
      norm_num [adjusted_confidence, ANSWERABILITY_PENALTY]
    have h := (C1_escalation_flag (2/5) "Can you sign our custom DPA?" none none
      cSoc2Evidence false "describes the wrong direction of the relationship"
      "drafted answer" 0 false
      { requires_escalation := false, reason := none, department := none }).1
    rw [Bool.eq_false_iff]
    intro hne
    rcases h.mp hne with ⟨-, hlt⟩
    rw [hadj] at hlt
    norm_num at hlt

/-- C6: the verified-answer cache lookup returns a record only when its
fingerprint equals the queried fingerprint (exact `find_one` hit) or it is
the top semantic-search hit with score strictly above 0.85; and when the
semantic search raises, the exception is caught and the lookup is a cache
miss (`none`) rather than a propagated failure. -/
theorem C6_cache_lookup (store : List QARecord)
    (semantic_search : Except String (List (QARecord × ℚ)))
    (fingerprint : String) :
    (∀ r, check_qa_library store semantic_search fingerprint = some r →
      (r ∈ store ∧ r.question_fingerprint = fingerprint) ∨
      ∃ score rest, semantic_search = .ok ((r, score) :: rest) ∧
        17/20 < score) ∧
    (∀ e, semantic_search = .error e →
      (∀ r ∈ store, r.question_fingerprint ≠ fingerprint) →
      check_qa_library store semantic_search fingerprint = none) := by
  constructor
  · intro r hr
    unfold check_qa_library at hr
    rcases hfind : store.find? (fun x => x.question_fingerprint == fingerprint)
      with _ | r0
    · rw [hfind] at hr
      rcases hsem : semantic_search with e | results
      · rw [hsem] at hr
        cases hr
      · rw [hsem] at hr
        rcases results with _ | ⟨⟨r0, score⟩, rest⟩
        · cases hr
        · dsimp only at hr
          by_cases hs : (17:ℚ)/20 < score
          · rw [if_pos hs] at hr
            injection hr with h0
            subst h0
            exact Or.inr ⟨score, rest, rfl, hs⟩
          · rw [if_neg hs] at hr
            cases hr
    · rw [hfind] at hr
      injection hr with h0
      subst h0
      refine Or.inl ⟨List.mem_of_find?_eq_some hfind, ?_⟩
      have h1 := List.find?_some hfind
      simpa using h1
  · intro e hsem hnone
    have hfind : store.find? (fun x => x.question_fingerprint == fingerprint) =
        none := by
      apply List.find?_eq_none.mpr
      intro x hx
      simpa using hnone x hx
    unfold check_qa_library
    rw [hfind, hsem]

/-- The match chain of the src/src employee router is always inhabited on a
non-empty directory, because its last step matches every employee. -/
lemma routerChainIsSome (o1 o2 o3 : Option EmployeeRecord)
    (x : EmployeeRecord) (xs : List EmployeeRecord) :
    (match o1 with
     | some e => some e
     | none =>
       match o2 with
       | some e => some e
       | none =>
         match o3 with
         | some e => some e
         | none => List.find? (fun _ => true) (x :: xs)).isSome = true := by
  rcases o1 with _ | e1 <;> rcases o2 with _ | e2 <;> rcases o3 with _ | e3 <;>
    simp [List.find?]

/-- C7 (amended): the src/src router (four lookups, ending in an
unconditional any-employee `find_one`) returns some employee whenever the
database is connected and the directory is non-empty, and `none` when the
database is unreachable or the directory is empty. (The src/agents router
lacks the any-employee step and is the subject of the counterexample.) -/
theorem C7_router_totality (employees : List EmployeeRecord)
    (category suggested_department : Option String) (h : employees ≠ []) :
    (route_to_employee_v2 true employees category
      suggested_department).isSome = true ∧
    route_to_employee_v2 false employees category suggested_department =
      none ∧
    route_to_employee_v2 true [] category suggested_department = none := by
  refine ⟨?_, rfl, ?_⟩
  · cases employees with
    | nil => exact absurd rfl h
    | cons x xs => exact routerChainIsSome _ _ _ x xs
  · rcases category with _ | cat <;> rfl

/-- A lone Engineering employee with an empty expertise list. -/
def cEngineerBob : EmployeeRecord :=
  { id := "e1", name := "Bob", email := "bob@example.com", role := "Engineer",
    department := "Engineering", expertise_areas := [] }

/-- C7 counterexample: the src/agents router returns `none` on a non-empty
directory - a lone Engineering employee with no expertise areas matches
neither the resolved Security department nor the last-resort filter, and
there is no any-employee step. -/
theorem C7_counterexample :
    route_to_employee_v1 [cEngineerBob] none none = none ∧
    ([cEngineerBob] : List EmployeeRecord) ≠ [] := by
  constructor
  · decide
  · simp

/-- Witness for C7: with the same lone employee the src/src router finds
somebody via its any-employee step. -/
theorem C7_witness :
    (route_to_employee_v2 true [cEngineerBob] (some "encryption")
      none).isSome = true ∧
    route_to_employee_v2 false [cEngineerBob] (some "encryption") none =
      none ∧
    route_to_employee_v2 true [] (some "encryption") none = none :=
  C7_router_totality [cEngineerBob] (some "encryption") none (by simp)

/-- `(String.mk l).toList` unfolds to `l`. -/
lemma toList_mk (l : List Char) : (String.mk l).toList = l := rfl

/-- Filtering characters distributes over `joinSep` whenever the separator
is untouched by the filter. -/
lemma filter_joinSep (p : Char → Bool) (sep : List Char)
    (hsep : sep.filter p = sep) :
    ∀ ls : List (List Char),
      (joinSep sep ls).filter p = joinSep sep (ls.map (List.filter p))
  | [] => by simp [joinSep]
  | [x] => by simp [joinSep]
  | x :: y :: rest => by
    simp only [joinSep, List.map_cons, List.filter_append, hsep,
      filter_joinSep p sep hsep (y :: rest)]

/-- Removing the question marks and apostrophes after joining with
underscores equals joining the already-stripped tokens: the separator
contains neither stripped character. -/
lemma stripPunct_pyJoin (ts : List String) :
    stripPunct (pyJoin "_" ts) = pyJoin "_" (ts.map stripPunct) := by
  have h := filter_joinSep
    (fun c => !(c == Char.ofNat 63 || c == Char.ofNat 39))
    "_".toList (by decide) (ts.map String.toList)
  unfold stripPunct pyJoin
  simp only [toList_mk, List.map_map, Function.comp] at h ⊢
  exact congrArg String.mk h

/-- C10: the fingerprint is the first five (lowercased, whitespace-split)
tokens joined by underscores with every question mark and apostrophe
removed, so any two questions whose first five tokens agree after that
punctuation removal receive the same fingerprint; and after promoting an
approved answer for the first question into an empty library, the cache
lookup for the second question finds it by exact fingerprint match -
whatever the semantic search would return, even an exception - bypassing
the 0.85 similarity bar. -/
theorem C10_fingerprint_collision (q1 q2 : String)
    (h : (tokens5 q1).map stripPunct = (tokens5 q2).map stripPunct) :
    (normalize_question q1).fingerprint = (normalize_question q2).fingerprint ∧
    ∀ (semantic_search : Except String (List (QARecord × ℚ)))
      (ans src : String),
      Option.map (fun r => r.answer)
        (check_qa_library (learn_from_feedback [] q1 ans src).1
          semantic_search (normalize_question q2).fingerprint) = some ans := by
  have hfp : (normalize_question q1).fingerprint =
      (normalize_question q2).fingerprint := by
    show stripPunct (pyJoin "_" (tokens5 q1)) =
      stripPunct (pyJoin "_" (tokens5 q2))
    rw [stripPunct_pyJoin, stripPunct_pyJoin, h]
  refine ⟨hfp, fun sem ans src => ?_⟩
  rw [← hfp]
  simp [check_qa_library, learn_from_feedback, upsertById, List.find?]

/-- Witness for C10: two distinct concrete questions whose first five
tokens differ only by a trailing question mark (so they agree after the
punctuation removal but not before) collide on the fingerprint, and the
answer promoted for the first is returned for the second even though the
semantic index raises. -/
theorem C10_witness :
    ("Do you support SSO login?" : String) ≠ "Do you support SSO login" ∧
    tokens5 "Do you support SSO login?" ≠ tokens5 "Do you support SSO login" ∧
    (normalize_question "Do you support SSO login?").fingerprint =
      (normalize_question "Do you support SSO login").fingerprint ∧
    Option.map (fun r => r.answer)
      (check_qa_library
        (learn_from_feedback [] "Do you support SSO login?"
          "Approved answer." "SOC2 Report").1
        (.error "index not built")
        (normalize_question "Do you support SSO login").fingerprint) =
      some "Approved answer." := by
  have h := C10_fingerprint_collision "Do you support SSO login?"
    "Do you support SSO login" (by decide)
  exact ⟨by decide, by decide, h.1,
    h.2 (.error "index not built") "Approved answer." "SOC2 Report"⟩

/-- C3 (amended): in `_process_batch` only the knowledge-agent retrieval is
wrapped in try/except. When every citation and drafting call of a batch
succeeds, the batch returns one answer per question - in order, even for
questions whose knowledge retrieval raised - and each answer escalates
exactly when its draft confidence is below the threshold (a retrieval
failure does not force escalation). A citation or drafting failure instead
propagates (see the counterexample). -/
theorem C3_batch_isolation (threshold : ℚ)
    (batch : List (QuestionM × QuestionOutcome))
    (h : ∀ p ∈ batch, (∃ c, p.2.citation = .ok c) ∧ ∃ d, p.2.draft = .ok d) :
    ∃ answers, process_batch threshold batch = .ok answers ∧
      answers.length = batch.length ∧
      ∀ pa ∈ batch.zip answers,
        pa.2.question_id = pa.1.1.question_id ∧
        ∀ d, pa.1.2.draft = .ok d →
          pa.2.needs_escalation = decide (d.confidence_score < threshold) := by
  induction batch with
  | nil => exact ⟨[], rfl, rfl, by simp⟩
  | cons p rest ih =>
    obtain ⟨q, oc⟩ := p
    obtain ⟨⟨c, hc⟩, ⟨d, hd⟩⟩ := h (q, oc) (List.mem_cons_self _ _)
    obtain ⟨answers, hpb, hlen, hzip⟩ :=
      ih (fun x hx => h x (List.mem_cons_of_mem _ hx))
    obtain ⟨a, hpa, haid, hane⟩ :
        ∃ a, process_question threshold q oc = .ok a ∧
          a.question_id = q.question_id ∧
          a.needs_escalation = decide (d.confidence_score < threshold) := by
      unfold process_question
      rw [hc, hd]
      exact ⟨_, rfl, rfl, rfl⟩
    refine ⟨a :: answers, ?_, by simpa using hlen, ?_⟩
    · show process_batch threshold ((q, oc) :: rest) = Except.ok (a :: answers)
      unfold process_batch
      rw [hpa, hpb]
    · intro pa hmem
      rw [List.zip_cons_cons] at hmem
      rcases List.mem_cons.mp hmem with rfl | hmem
      · refine ⟨haid, fun d2 hd2 => ?_⟩
        have hdd : Except.ok (ε := String) d = .ok d2 := hd.symm.trans hd2
        injection hdd with h2
        subst h2
        exact hane
      · exact hzip pa hmem

/-- Concrete question one. -/
def cQ1 : QuestionM :=
  { question_id := "q1", question_text := "Do you encrypt data at rest?",
    category := none }

/-- Concrete question two. -/
def cQ2 : QuestionM :=
  { question_id := "q2", question_text := "Do you have SOC 2 certification?",
    category := none }

/-- A high-confidence draft for question one. -/
def cDraftQ1 : DraftResultM :=
  { question_id := "q1", answer := "Yes, with AES-256.", confidence := "high",
    confidence_score := 9/10, reasoning := none }

/-- A high-confidence draft for question two. -/
def cDraftQ2 : DraftResultM :=
  { question_id := "q2", answer := "Yes, SOC 2 Type II.",
    confidence := "high", confidence_score := 9/10, reasoning := none }

/-- Outcome where the drafting call raises. -/
def cOutcomeDraftErr : QuestionOutcome :=
  { knowledge := .ok [], citation := .ok { question_id := "q1", citations := [] },
    draft := .error "drafter unavailable" }

/-- Outcome where every call succeeds. -/
def cOutcomeOk : QuestionOutcome :=
  { knowledge := .ok [], citation := .ok { question_id := "q2", citations := [] },
    draft := .ok cDraftQ2 }

/-- Outcome where the knowledge retrieval raises but citation and drafting
succeed. -/
def cOutcomeKnowErr : QuestionOutcome :=
  { knowledge := .error "embedding service down",
    citation := .ok { question_id := "q1", citations := [] },
    draft := .ok cDraftQ1 }

/-- Concrete two-question batch whose first question loses its knowledge
retrieval. -/
def cBatch : List (QuestionM × QuestionOutcome) :=
  [(cQ1, cOutcomeKnowErr), (cQ2, cOutcomeOk)]

/-- C3 counterexample: (a) a drafting-service failure on the first question
aborts the whole batch - the second question is dropped from the response
instead of being returned; (b) a question whose knowledge retrieval failed
is still answered, but with `needs_escalation = false` (it follows the
draft confidence alone), not forced to true. -/
theorem C3_counterexample :
    process_batch (1/2) [(cQ1, cOutcomeDraftErr), (cQ2, cOutcomeOk)] =
      .error "drafter unavailable" ∧
    Except.map (fun a => a.needs_escalation)
      (process_question (1/2) cQ1 cOutcomeKnowErr) = .ok false := by
  constructor
  · rfl
  · have hde : decide ((9:ℚ)/10 < 1/2) = false :=
      decide_eq_false (by norm_num)
    unfold process_question cOutcomeKnowErr
    simp only [cDraftQ1, hde]
    rfl

/-- Witness for C3: on the concrete batch whose first question loses its
knowledge retrieval, both questions are answered in order. -/
theorem C3_witness :
    ∃ answers, process_batch (1/2) cBatch = .ok answers ∧
      answers.length = cBatch.length ∧
      ∀ pa ∈ cBatch.zip answers,
        pa.2.question_id = pa.1.1.question_id ∧
        ∀ d, pa.1.2.draft = .ok d →
          pa.2.needs_escalation = decide (d.confidence_score < 1/2) := by
  apply C3_batch_isolation
  intro p hp
  rcases List.mem_cons.mp hp with rfl | hp
  · exact ⟨⟨_, rfl⟩, ⟨cDraftQ1, rfl⟩⟩
  · rcases List.mem_cons.mp hp with rfl | hp
    · exact ⟨⟨_, rfl⟩, ⟨cDraftQ2, rfl⟩⟩
    · cases hp
